import Mathlib

/-!
Verification of the Tap-Bill backend (src/backend/server.py and
src/backend/auth_service.py): a shallow embedding of the user store,
the token gate and the HTTP endpoints, followed by theorems about the
specified properties.

The external collaborators are modelled as parameters: the Firebase
verifier is a function `String → Except String DecodedToken`, the
MongoDB `users` collection is a `List UserRecord` (one document per
list element, `find_one`/`update_one` act on the first match, as Mongo
does), and `$regex` matching is an abstract predicate passed to the
search endpoint.  Timestamps (`datetime.utcnow()`) are a `Nat`
parameter `now`.
-/

namespace TapBill

/-- A decoded Firebase ID token, as consumed through `.get("phone_number")`
and `.get("uid")` in server.py: either claim may be absent. -/
structure DecodedToken where
  phone_number : Option String
  uid : Option String
deriving Repr, DecidableEq

/-- A document of the `users` collection.  Fields are exactly those written
by `verify_token` in server.py lines 72–81. -/
structure UserRecord where
  phoneNumber : String
  firebaseUid : Option String
  name : String
  isActive : Bool
  isSuperAdmin : Bool
  createdAt : Nat
  updatedAt : Nat
  lastLogin : Nat
deriving Repr, DecidableEq

/-- An HTTPException: status code and detail string. -/
structure HTTPError where
  status : Nat
  detail : String
deriving Repr, DecidableEq

/-- auth_service.py line 11: `SUPER_ADMINS = ["+919899273448"]`. -/
def SUPER_ADMINS : List String := ["+919899273448"]

/-- auth_service.py lines 21–23: membership of the allow-list. -/
def is_super_admin (phone_number : String) : Bool :=
  SUPER_ADMINS.contains phone_number

/-- `db.users.find_one({"phoneNumber": phone})`: first document whose
`phoneNumber` equals `phone`. -/
def find_one (store : List UserRecord) (phone : String) : Option UserRecord :=
  store.find? (fun u => u.phoneNumber == phone)

/-- `db.users.update_one({"phoneNumber": phone}, {"$set": ...})`: apply `f`
to the first matching document.  Returns the new collection, the
`matched_count` and the `modified_count` (Mongo counts a document as
modified only when the `$set` actually changed it). -/
def update_one (store : List UserRecord) (phone : String)
    (f : UserRecord → UserRecord) : List UserRecord × Nat × Nat :=
  match store with
  | [] => ([], 0, 0)
  | u :: rest =>
    if u.phoneNumber = phone then
      (f u :: rest, 1, if f u = u then 0 else 1)
    else
      let r := update_one rest phone f
      (u :: r.1, r.2.1, r.2.2)

/-- The user payload returned by the verify-token endpoint
(server.py lines 104–112). -/
structure VerifyResult where
  phoneNumber : String
  name : String
  isActive : Bool
  isSuperAdmin : Bool
deriving Repr, DecidableEq

/-- server.py lines 97–100: the deactivated-account failure. -/
def accessDeniedError : HTTPError :=
  ⟨403, "Your account has been deactivated. Please contact support."⟩

/-- server.py line 149/165/183: the non-admin failure on admin endpoints. -/
def forbiddenError : HTTPError := ⟨403, "Access denied"⟩

/-- server.py line 122/138/199: missing record. -/
def notFoundError : HTTPError := ⟨404, "User not found"⟩

/-- server.py line 187: editing an allow-listed admin. -/
def cannotEditAdminError : HTTPError := ⟨400, "Cannot edit super admin"⟩

/-- server.py lines 95–112: the active gate and response assembly at the
end of `verify_token`.  `user.get("isActive", True)` always finds the
field in documents this server writes. -/
def activeGate (u : UserRecord) (is_admin : Bool) :
    Except HTTPError VerifyResult :=
  if !u.isActive && !is_admin then
    .error accessDeniedError
  else
    .ok ⟨u.phoneNumber, u.name, u.isActive, is_admin⟩

/-- server.py lines 58–112, `verify_token` after the auth dependency:
find-or-create the record, refresh `lastLogin`/`isSuperAdmin` on an
existing record, then gate on `isActive`.  Returns the collection as
left by the handler together with the HTTP outcome (the collection
write happens before the gate, so it survives an `AccessDenied`). -/
def verify_token (store : List UserRecord) (now : Nat)
    (phone : String) (uid : Option String) :
    List UserRecord × Except HTTPError VerifyResult :=
  let is_admin := is_super_admin phone
  match find_one store phone with
  | none =>
    let new_user : UserRecord :=
      { phoneNumber := phone, firebaseUid := uid, name := "",
        isActive := true, isSuperAdmin := is_admin,
        createdAt := now, updatedAt := now, lastLogin := now }
    (store ++ [new_user], activeGate new_user is_admin)
  | some _ =>
    let r := update_one store phone
      (fun u => { u with lastLogin := now, isSuperAdmin := is_admin })
    match find_one r.1 phone with
    | none => (r.1, .error ⟨500, "Internal Server Error"⟩)
    | some u => (r.1, activeGate u is_admin)

/-- server.py lines 115–125, `get_profile`: look the caller's record up and
return it, 404 when absent.  No `isActive` check appears here. -/
def get_profile (store : List UserRecord) (phone : String) :
    Except HTTPError UserRecord :=
  match find_one store phone with
  | none => .error notFoundError
  | some u => .ok u

/-- server.py lines 127–140, `update_profile`: `$set` the caller's `name`
and `updatedAt`, then 404 when `modified_count == 0`. -/
def update_profile (store : List UserRecord) (now : Nat)
    (phone : String) (name : String) :
    List UserRecord × Except HTTPError String :=
  let r := update_one store phone
    (fun u => { u with name := name, updatedAt := now })
  if r.2.2 = 0 then
    (r.1, .error notFoundError)
  else
    (r.1, .ok "Profile updated successfully")

/-- server.py lines 143–157, `get_all_users`: super-admin gate, then every
document whose `phoneNumber` is `$nin SUPER_ADMINS`. -/
def get_all_users (store : List UserRecord) (caller_phone : String) :
    Except HTTPError (List UserRecord) :=
  if !is_super_admin caller_phone then
    .error forbiddenError
  else
    .ok (store.filter (fun u => !SUPER_ADMINS.contains u.phoneNumber))

/-- server.py lines 159–175, `search_users`: super-admin gate, then every
document whose `phoneNumber` satisfies the `$regex` (modelled by the
abstract predicate `rmatch`) and is `$nin SUPER_ADMINS`. -/
def search_users (rmatch : String → String → Bool)
    (store : List UserRecord) (caller_phone : String) (query : String) :
    Except HTTPError (List UserRecord) :=
  if !is_super_admin caller_phone then
    .error forbiddenError
  else
    .ok (store.filter (fun u =>
      rmatch query u.phoneNumber && !SUPER_ADMINS.contains u.phoneNumber))

/-- server.py lines 177–201, `update_user`: super-admin gate, refusal to
edit an allow-listed target, `$set` of `name`/`isActive`/`updatedAt`,
then 404 when `matched_count == 0`. -/
def update_user (store : List UserRecord) (now : Nat)
    (caller_phone user_phone : String) (name : String) (isActive : Bool) :
    List UserRecord × Except HTTPError String :=
  if !is_super_admin caller_phone then
    (store, .error forbiddenError)
  else if SUPER_ADMINS.contains user_phone then
    (store, .error cannotEditAdminError)
  else
    let r := update_one store user_phone
      (fun u => { u with name := name, isActive := isActive, updatedAt := now })
    if r.2.1 = 0 then
      (r.1, .error notFoundError)
    else
      (r.1, .ok "User updated successfully")

/-- Python's `str.startswith`: the pattern's character sequence is a prefix
of the string's character sequence. -/
def startswith (s pat : String) : Bool :=
  pat.data.isPrefixOf s.data

/-- server.py lines 39–51, `get_current_user`: header-shape check, external
verification (auth_service.py lines 13–19 wraps any verifier failure as
`Invalid token: ...`, and the handler re-raises every failure as 401),
then rejection of a token whose phone-number claim is absent or empty
(`if not phone_number` is true for both). -/
def get_current_user (verify : String → Except String DecodedToken)
    (authorization : Option String) : Except HTTPError DecodedToken :=
  match authorization with
  | none => .error ⟨401, "Missing or invalid authorization header"⟩
  | some auth =>
    if startswith auth "Bearer " then
      match verify (auth.replace "Bearer " "") with
      | .error e => .error ⟨401, "Invalid token: " ++ e⟩
      | .ok decoded =>
        match decoded.phone_number with
        | none => .error ⟨401, "Phone number not found in token"⟩
        | some p =>
          if p = "" then .error ⟨401, "Phone number not found in token"⟩
          else .ok decoded
    else .error ⟨401, "Missing or invalid authorization header"⟩

/-- The verify-token route as dispatched: the `get_current_user` dependency
runs first and any of its failures is returned with the collection
untouched; on success the handler body runs with the token's phone
number (which `get_current_user` guarantees present and non-empty). -/
def handle_verify_token (verify : String → Except String DecodedToken)
    (store : List UserRecord) (now : Nat) (authorization : Option String) :
    List UserRecord × Except HTTPError VerifyResult :=
  match get_current_user verify authorization with
  | .error e => (store, .error e)
  | .ok d => verify_token store now (d.phone_number.getD "") d.uid

/-! ### Store lemmas -/

theorem find_one_cons_pos {a : UserRecord} {phone : String} (rest : List UserRecord)
    (h : a.phoneNumber = phone) : find_one (a :: rest) phone = some a := by
  unfold find_one
  exact List.find?_cons_of_pos _ (by simp [h])

theorem find_one_cons_neg {a : UserRecord} {phone : String} (rest : List UserRecord)
    (h : a.phoneNumber ≠ phone) : find_one (a :: rest) phone = find_one rest phone := by
  unfold find_one
  exact List.find?_cons_of_neg _ (by simp [h])

theorem find_one_phone {store : List UserRecord} {phone : String} {u : UserRecord}
    (h : find_one store phone = some u) : u.phoneNumber = phone := by
  have h' : store.find? (fun v => v.phoneNumber == phone) = some u := h
  have := List.find?_some h'
  simpa using this

theorem find_one_mem {store : List UserRecord} {phone : String} {u : UserRecord}
    (h : find_one store phone = some u) : u ∈ store := by
  have h' : store.find? (fun v => v.phoneNumber == phone) = some u := h
  exact List.mem_of_find?_eq_some h'

theorem update_one_cons_pos {a : UserRecord} {phone : String}
    (rest : List UserRecord) (f : UserRecord → UserRecord) (h : a.phoneNumber = phone) :
    update_one (a :: rest) phone f = (f a :: rest, 1, if f a = a then 0 else 1) := by
  simp [update_one, h]

theorem update_one_cons_neg {a : UserRecord} {phone : String}
    (rest : List UserRecord) (f : UserRecord → UserRecord) (h : a.phoneNumber ≠ phone) :
    update_one (a :: rest) phone f =
      (a :: (update_one rest phone f).1,
       (update_one rest phone f).2.1, (update_one rest phone f).2.2) := by
  simp [update_one, h]

theorem update_one_of_find_none {store : List UserRecord} {phone : String}
    (f : UserRecord → UserRecord) (h : find_one store phone = none) :
    update_one store phone f = (store, 0, 0) := by
  induction store with
  | nil => rfl
  | cons a rest ih =>
    by_cases ha : a.phoneNumber = phone
    · rw [find_one_cons_pos rest ha] at h
      exact absurd h (by simp)
    · rw [find_one_cons_neg rest ha] at h
      rw [update_one_cons_neg rest f ha, ih h]

theorem find_one_update_one {store : List UserRecord} {phone : String} {u : UserRecord}
    (f : UserRecord → UserRecord) (h : find_one store phone = some u)
    (hp : (f u).phoneNumber = phone) :
    find_one (update_one store phone f).1 phone = some (f u) := by
  induction store with
  | nil => exact absurd h (by simp [find_one])
  | cons a rest ih =>
    by_cases ha : a.phoneNumber = phone
    · rw [find_one_cons_pos rest ha] at h
      rw [update_one_cons_pos rest f ha]
      rw [Option.some_inj] at h
      subst h
      exact find_one_cons_pos rest hp
    · rw [find_one_cons_neg rest ha] at h
      rw [update_one_cons_neg rest f ha, find_one_cons_neg _ ha]
      exact ih h

theorem update_one_counts {store : List UserRecord} {phone : String} {u : UserRecord}
    (f : UserRecord → UserRecord) (h : find_one store phone = some u) :
    (update_one store phone f).2.1 = 1 ∧
      (update_one store phone f).2.2 = (if f u = u then 0 else 1) := by
  induction store with
  | nil => exact absurd h (by simp [find_one])
  | cons a rest ih =>
    by_cases ha : a.phoneNumber = phone
    · rw [find_one_cons_pos rest ha] at h
      rw [Option.some_inj] at h
      subst h
      rw [update_one_cons_pos rest f ha]
      exact ⟨rfl, rfl⟩
    · rw [find_one_cons_neg rest ha] at h
      rw [update_one_cons_neg rest f ha]
      exact ih h

theorem update_one_length (store : List UserRecord) (phone : String)
    (f : UserRecord → UserRecord) :
    (update_one store phone f).1.length = store.length := by
  induction store with
  | nil => rfl
  | cons a rest ih =>
    by_cases ha : a.phoneNumber = phone
    · rw [update_one_cons_pos rest f ha]
      simp
    · rw [update_one_cons_neg rest f ha]
      simpa using ih

theorem update_one_other {store : List UserRecord} {phone : String}
    (f : UserRecord → UserRecord) {v : UserRecord}
    (hv : v ∈ (update_one store phone f).1) :
    v ∈ store ∨ ∃ u, u ∈ store ∧ u.phoneNumber = phone ∧ v = f u := by
  induction store with
  | nil => exact absurd hv (by simp [update_one])
  | cons a rest ih =>
    by_cases ha : a.phoneNumber = phone
    · rw [update_one_cons_pos rest f ha] at hv
      rcases List.mem_cons.mp hv with hv | hv
      · exact Or.inr ⟨a, List.mem_cons_self a rest, ha, hv⟩
      · exact Or.inl (List.mem_cons_of_mem a hv)
    · rw [update_one_cons_neg rest f ha] at hv
      rcases List.mem_cons.mp hv with hv | hv
      · exact Or.inl (hv ▸ List.mem_cons_self a rest)
      · rcases ih hv with h | ⟨u, hu, hup, hvu⟩
        · exact Or.inl (List.mem_cons_of_mem a h)
        · exact Or.inr ⟨u, List.mem_cons_of_mem a hu, hup, hvu⟩

theorem find_one_append_right {store : List UserRecord} {phone : String}
    (v : UserRecord) (h : find_one store phone = none) :
    find_one (store ++ [v]) phone = find_one [v] phone := by
  induction store with
  | nil => rfl
  | cons a rest ih =>
    by_cases ha : a.phoneNumber = phone
    · rw [find_one_cons_pos rest ha] at h
      exact absurd h (by simp)
    · rw [find_one_cons_neg rest ha] at h
      rw [List.cons_append, find_one_cons_neg _ ha]
      exact ih h

theorem verify_token_of_find_none (store : List UserRecord) (now : Nat)
    (phone : String) (uid : Option String) (h : find_one store phone = none) :
    verify_token store now phone uid =
      (store ++ [{ phoneNumber := phone, firebaseUid := uid, name := "",
                   isActive := true, isSuperAdmin := is_super_admin phone,
                   createdAt := now, updatedAt := now, lastLogin := now }],
       activeGate { phoneNumber := phone, firebaseUid := uid, name := "",
                    isActive := true, isSuperAdmin := is_super_admin phone,
                    createdAt := now, updatedAt := now, lastLogin := now }
         (is_super_admin phone)) := by
  simp only [verify_token, h]

theorem verify_token_of_find_some (store : List UserRecord) (now : Nat)
    (phone : String) (uid : Option String) (u : UserRecord)
    (h : find_one store phone = some u) :
    verify_token store now phone uid =
      ((update_one store phone
          (fun v => { v with lastLogin := now, isSuperAdmin := is_super_admin phone })).1,
       activeGate { u with lastLogin := now, isSuperAdmin := is_super_admin phone }
         (is_super_admin phone)) := by
  have hp : ({ u with lastLogin := now, isSuperAdmin := is_super_admin phone } : UserRecord).phoneNumber = phone := by
    simpa using find_one_phone h
  have hfu := find_one_update_one
    (fun v => { v with lastLogin := now, isSuperAdmin := is_super_admin phone }) h hp
  simp only [verify_token, h, hfu]

/-! ### Claim theorems -/

/-- C4: `is_super_admin` is a pure function of its phone-number argument and
the fixed allow-list: it returns true for every allow-listed number and
false for every other number, independently of any stored record state
(it takes no store argument at all). -/
theorem C4_is_super_admin_allow_list (phone : String) :
    (phone ∈ SUPER_ADMINS → is_super_admin phone = true) ∧
    (phone ∉ SUPER_ADMINS → is_super_admin phone = false) := by
  constructor
  · intro h
    simpa [is_super_admin] using h
  · intro h
    simpa [is_super_admin] using h

theorem C4_witness :
    is_super_admin "+919899273448" = true ∧ is_super_admin "+911111111111" = false :=
  ⟨(C4_is_super_admin_allow_list "+919899273448").1 (by decide),
   (C4_is_super_admin_allow_list "+911111111111").2 (by decide)⟩

/-- C8: a caller whose verified phone number is not allow-listed gets
`403 Access denied` from each admin endpoint, receives no user data, and
the store is returned unchanged. -/
theorem C8_admin_endpoints_forbidden (rmatch : String → String → Bool)
    (store : List UserRecord) (now : Nat) (caller target name query : String)
    (act : Bool) (h : is_super_admin caller = false) :
    get_all_users store caller = .error forbiddenError ∧
    search_users rmatch store caller query = .error forbiddenError ∧
    update_user store now caller target name act = (store, .error forbiddenError) := by
  refine ⟨?_, ?_, ?_⟩
  · simp [get_all_users, h]
  · simp [search_users, h]
  · simp [update_user, h]

theorem C8_witness :
    get_all_users [] "+911111111111" = .error forbiddenError ∧
    search_users (fun _ _ => true) [] "+911111111111" "q" = .error forbiddenError ∧
    update_user [] 0 "+911111111111" "+92" "n" true = ([], .error forbiddenError) :=
  C8_admin_endpoints_forbidden (fun _ _ => true) [] 0 "+911111111111" "+92" "n" "q" true
    (by decide)

/-- C7: for a super-admin caller, `get_all_users` returns exactly the stored
records whose phone number is not allow-listed, and `search_users`
returns exactly the stored records whose phone number matches the query
and is not allow-listed; no allow-listed record appears in either. -/
theorem C7_admin_listing_excludes_admins (rmatch : String → String → Bool)
    (store : List UserRecord) (caller query : String)
    (h : is_super_admin caller = true) :
    (∃ res, get_all_users store caller = .ok res ∧
      ∀ u, u ∈ res ↔ (u ∈ store ∧ u.phoneNumber ∉ SUPER_ADMINS)) ∧
    (∃ res, search_users rmatch store caller query = .ok res ∧
      ∀ u, u ∈ res ↔
        (u ∈ store ∧ rmatch query u.phoneNumber = true ∧
          u.phoneNumber ∉ SUPER_ADMINS)) := by
  constructor
  · refine ⟨store.filter (fun u => !SUPER_ADMINS.contains u.phoneNumber), ?_, ?_⟩
    · simp [get_all_users, h]
    · intro u
      simp [List.mem_filter]
  · refine ⟨store.filter (fun u =>
      rmatch query u.phoneNumber && !SUPER_ADMINS.contains u.phoneNumber), ?_, ?_⟩
    · simp [search_users, h]
    · intro u
      simp [List.mem_filter, and_assoc]

theorem C7_witness :
    (∃ res, get_all_users [] "+919899273448" = .ok res ∧
      ∀ u, u ∈ res ↔ (u ∈ ([] : List UserRecord) ∧ u.phoneNumber ∉ SUPER_ADMINS)) ∧
    (∃ res, search_users (fun _ _ => true) [] "+919899273448" "9" = .ok res ∧
      ∀ u, u ∈ res ↔
        (u ∈ ([] : List UserRecord) ∧ (fun _ _ => true) "9" u.phoneNumber = true ∧
          u.phoneNumber ∉ SUPER_ADMINS)) :=
  C7_admin_listing_excludes_admins (fun _ _ => true) [] "+919899273448" "9" (by decide)

/-- C2: the first verification for an unseen phone number appends exactly one
fresh record carrying `isActive = true`, empty name, the classifier's
admin flag and all three timestamps equal to now; a second verification
for the same number does not grow the store. -/
theorem C2_first_login_creates_once (store : List UserRecord) (now now2 : Nat)
    (phone : String) (uid uid2 : Option String)
    (h : find_one store phone = none) :
    (verify_token store now phone uid).1 =
      store ++ [{ phoneNumber := phone, firebaseUid := uid, name := "",
                  isActive := true, isSuperAdmin := is_super_admin phone,
                  createdAt := now, updatedAt := now, lastLogin := now }] ∧
    (verify_token (verify_token store now phone uid).1 now2 phone uid2).1.length =
      (verify_token store now phone uid).1.length := by
  have h1 := verify_token_of_find_none store now phone uid h
  constructor
  · rw [h1]
  · rw [h1]
    have hfind : find_one
        (store ++ [⟨phone, uid, "", true, is_super_admin phone, now, now, now⟩]) phone =
        some ⟨phone, uid, "", true, is_super_admin phone, now, now, now⟩ := by
      rw [find_one_append_right _ h]
      exact find_one_cons_pos [] rfl
    rw [verify_token_of_find_some _ now2 phone uid2 _ hfind]
    simp [update_one_length]

theorem C2_witness :
    (verify_token [] 1 "+911111111111" (some "uid1")).1 =
      [] ++ [{ phoneNumber := "+911111111111", firebaseUid := some "uid1", name := "",
               isActive := true, isSuperAdmin := is_super_admin "+911111111111",
               createdAt := 1, updatedAt := 1, lastLogin := 1 }] ∧
    (verify_token (verify_token [] 1 "+911111111111" (some "uid1")).1 2
        "+911111111111" none).1.length =
      (verify_token [] 1 "+911111111111" (some "uid1")).1.length :=
  C2_first_login_creates_once [] 1 2 "+911111111111" (some "uid1") none rfl

/-- C3: verifying a token for a phone number that already has a record
rewrites only that record's `lastLogin` and `isSuperAdmin` (to the
classifier's result); every other field of the record, the number of
records, and every record with a different phone number are unchanged. -/
theorem C3_relogin_updates_only_login_fields (store : List UserRecord) (now : Nat)
    (phone : String) (uid : Option String) (u : UserRecord)
    (h : find_one store phone = some u) :
    find_one (verify_token store now phone uid).1 phone =
      some { u with lastLogin := now, isSuperAdmin := is_super_admin phone } ∧
    (verify_token store now phone uid).1.length = store.length ∧
    ∀ v ∈ (verify_token store now phone uid).1, v.phoneNumber ≠ phone → v ∈ store := by
  have h1 := verify_token_of_find_some store now phone uid u h
  refine ⟨?_, ?_, ?_⟩
  · rw [h1]
    exact find_one_update_one _ h (by simpa using find_one_phone h)
  · rw [h1]
    simp [update_one_length]
  · rw [h1]
    intro v hv hne
    rcases update_one_other _ hv with hmem | ⟨w, hw, hwp, hvw⟩
    · exact hmem
    · exact absurd (by simpa [hvw] using hwp) hne

theorem C3_witness :
    find_one
      (verify_token
        [{ phoneNumber := "+911111111111", firebaseUid := some "uid1", name := "Bob",
           isActive := true, isSuperAdmin := false,
           createdAt := 0, updatedAt := 0, lastLogin := 0 }] 9 "+911111111111" none).1
      "+911111111111" =
      some { phoneNumber := "+911111111111", firebaseUid := some "uid1", name := "Bob",
             isActive := true, isSuperAdmin := is_super_admin "+911111111111",
             createdAt := 0, updatedAt := 0, lastLogin := 9 } ∧
    (verify_token
      [{ phoneNumber := "+911111111111", firebaseUid := some "uid1", name := "Bob",
         isActive := true, isSuperAdmin := false,
         createdAt := 0, updatedAt := 0, lastLogin := 0 }] 9 "+911111111111" none).1.length =
      [({ phoneNumber := "+911111111111", firebaseUid := some "uid1", name := "Bob",
          isActive := true, isSuperAdmin := false,
          createdAt := 0, updatedAt := 0, lastLogin := 0 } : UserRecord)].length ∧
    ∀ v ∈ (verify_token
      [{ phoneNumber := "+911111111111", firebaseUid := some "uid1", name := "Bob",
         isActive := true, isSuperAdmin := false,
         createdAt := 0, updatedAt := 0, lastLogin := 0 }] 9 "+911111111111" none).1,
      v.phoneNumber ≠ "+911111111111" →
      v ∈ [({ phoneNumber := "+911111111111", firebaseUid := some "uid1", name := "Bob",
              isActive := true, isSuperAdmin := false,
              createdAt := 0, updatedAt := 0, lastLogin := 0 } : UserRecord)] :=
  C3_relogin_updates_only_login_fields
    [{ phoneNumber := "+911111111111", firebaseUid := some "uid1", name := "Bob",
       isActive := true, isSuperAdmin := false,
       createdAt := 0, updatedAt := 0, lastLogin := 0 }] 9 "+911111111111" none
    { phoneNumber := "+911111111111", firebaseUid := some "uid1", name := "Bob",
      isActive := true, isSuperAdmin := false,
      createdAt := 0, updatedAt := 0, lastLogin := 0 } rfl

/-- C10: when verification hits an existing record that is deactivated and
not allow-listed, the store write happens anyway: the request fails with
the deactivated-account error while the stored record's `lastLogin` and
`isSuperAdmin` are already refreshed. -/
theorem C10_store_updated_before_access_denied (store : List UserRecord) (now : Nat)
    (phone : String) (uid : Option String) (u : UserRecord)
    (h : find_one store phone = some u) (hia : u.isActive = false)
    (hna : is_super_admin phone = false) :
    (verify_token store now phone uid).2 = .error accessDeniedError ∧
    find_one (verify_token store now phone uid).1 phone =
      some { u with lastLogin := now, isSuperAdmin := false } := by
  have h1 := verify_token_of_find_some store now phone uid u h
  constructor
  · rw [h1]
    simp [activeGate, hia, hna]
  · rw [h1]
    have hf := find_one_update_one
      (fun v => { v with lastLogin := now, isSuperAdmin := is_super_admin phone }) h
      (by simpa using find_one_phone h)
    simpa [hna] using hf

theorem C10_witness :
    (verify_token
      [{ phoneNumber := "+911111111111", firebaseUid := none, name := "Eve",
         isActive := false, isSuperAdmin := false,
         createdAt := 0, updatedAt := 0, lastLogin := 0 }] 4 "+911111111111" none).2 =
      .error accessDeniedError ∧
    find_one
      (verify_token
        [{ phoneNumber := "+911111111111", firebaseUid := none, name := "Eve",
           isActive := false, isSuperAdmin := false,
           createdAt := 0, updatedAt := 0, lastLogin := 0 }] 4 "+911111111111" none).1
      "+911111111111" =
      some { phoneNumber := "+911111111111", firebaseUid := none, name := "Eve",
             isActive := false, isSuperAdmin := false,
             createdAt := 0, updatedAt := 0, lastLogin := 4 } :=
  C10_store_updated_before_access_denied
    [{ phoneNumber := "+911111111111", firebaseUid := none, name := "Eve",
       isActive := false, isSuperAdmin := false,
       createdAt := 0, updatedAt := 0, lastLogin := 0 }] 4 "+911111111111" none
    { phoneNumber := "+911111111111", firebaseUid := none, name := "Eve",
      isActive := false, isSuperAdmin := false,
      createdAt := 0, updatedAt := 0, lastLogin := 0 } rfl rfl (by decide)

theorem update_one_fst_of_fix {store : List UserRecord} {phone : String}
    (f : UserRecord → UserRecord) {u : UserRecord}
    (h : find_one store phone = some u) (hfix : f u = u) :
    (update_one store phone f).1 = store := by
  induction store with
  | nil => rfl
  | cons a rest ih =>
    by_cases ha : a.phoneNumber = phone
    · rw [find_one_cons_pos rest ha] at h
      rw [Option.some_inj] at h
      subst h
      rw [update_one_cons_pos rest f ha]
      simp [hfix]
    · rw [find_one_cons_neg rest ha] at h
      rw [update_one_cons_neg rest f ha]
      simp [ih h]

theorem set_name_updatedAt_eq_self (u : UserRecord) (name : String) (now : Nat) :
    ({ u with name := name, updatedAt := now } = u) ↔
      (u.name = name ∧ u.updatedAt = now) := by
  constructor
  · intro h
    exact ⟨(congrArg UserRecord.name h).symm, (congrArg UserRecord.updatedAt h).symm⟩
  · rintro ⟨h1, h2⟩
    cases u
    simp_all

/-- C1 (counterexample): a record that is deactivated and not allow-listed
does not make every gated endpoint fail with the deactivated-account
error; `get_profile` returns the record successfully. -/
theorem C1_counterexample :
    is_super_admin "+911111111111" = false ∧
    get_profile
      [{ phoneNumber := "+911111111111", firebaseUid := some "uid1", name := "",
         isActive := false, isSuperAdmin := false,
         createdAt := 0, updatedAt := 0, lastLogin := 0 }] "+911111111111" =
      .ok { phoneNumber := "+911111111111", firebaseUid := some "uid1", name := "",
            isActive := false, isSuperAdmin := false,
            createdAt := 0, updatedAt := 0, lastLogin := 0 } := by
  constructor
  · decide
  · rfl

/-- C1 (amended): only `verify_token` enforces the deactivation gate.  For a
record with `isActive = false`: a non-allow-listed number fails
`verify_token` with the deactivated-account error and an allow-listed
number succeeds, while `get_profile` returns the record without checking
`isActive`, `update_profile` performs its normal name/timestamp update
(succeeding whenever the `$set` changes the record), and each admin
endpoint — `get_all_users`, `search_users` and `update_user` — rejects a
non-admin caller with `403 Access denied` irrespective of `isActive`. -/
theorem C1_deactivation_gate_only_in_verify_token
    (rmatch : String → String → Bool) (store : List UserRecord)
    (now : Nat) (phone : String) (uid : Option String) (u : UserRecord)
    (target nm query : String) (act : Bool)
    (h : find_one store phone = some u) (hia : u.isActive = false) :
    (is_super_admin phone = false →
      (verify_token store now phone uid).2 = .error accessDeniedError) ∧
    (is_super_admin phone = true →
      (verify_token store now phone uid).2 =
        .ok { phoneNumber := phone, name := u.name,
              isActive := false, isSuperAdmin := true }) ∧
    get_profile store phone = .ok u ∧
    (¬(u.name = nm ∧ u.updatedAt = now) →
      (update_profile store now phone nm).2 = .ok "Profile updated successfully") ∧
    (is_super_admin phone = false →
      get_all_users store phone = .error forbiddenError ∧
      search_users rmatch store phone query = .error forbiddenError ∧
      update_user store now phone target nm act = (store, .error forbiddenError)) := by
  have h1 := verify_token_of_find_some store now phone uid u h
  have hup : u.phoneNumber = phone := find_one_phone h
  refine ⟨?_, ?_, ?_, ?_, ?_⟩
  · intro hna
    rw [h1]
    simp [activeGate, hia, hna]
  · intro ha
    rw [h1]
    simp [activeGate, hia, ha, hup]
  · simp [get_profile, h]
  · intro hne
    have hfix : ¬({ u with name := nm, updatedAt := now } : UserRecord) = u := by
      intro hcontra
      exact hne ((set_name_updatedAt_eq_self u nm now).mp hcontra)
    have hcnt := update_one_counts
      (fun v => { v with name := nm, updatedAt := now }) h
    simp [update_profile, hcnt.2, hfix]
  · intro hna
    exact ⟨by simp [get_all_users, hna], by simp [search_users, hna],
      by simp [update_user, hna]⟩

theorem C1_witness :
    (verify_token
      [{ phoneNumber := "+911111111111", firebaseUid := some "uid1", name := "",
         isActive := false, isSuperAdmin := false,
         createdAt := 0, updatedAt := 0, lastLogin := 0 }] 3 "+911111111111"
      (some "uid1")).2 = .error accessDeniedError :=
  (C1_deactivation_gate_only_in_verify_token (fun _ _ => true)
    [{ phoneNumber := "+911111111111", firebaseUid := some "uid1", name := "",
       isActive := false, isSuperAdmin := false,
       createdAt := 0, updatedAt := 0, lastLogin := 0 }] 3 "+911111111111"
    (some "uid1")
    { phoneNumber := "+911111111111", firebaseUid := some "uid1", name := "",
      isActive := false, isSuperAdmin := false,
      createdAt := 0, updatedAt := 0, lastLogin := 0 }
    "+913333333333" "n" "q" true rfl rfl).1 (by decide)

/-- C5: for a super-admin caller, `update_user` fails with
`400 Cannot edit super admin` and mutates nothing when the target is
allow-listed; otherwise it fails with `404 User not found` and mutates
nothing when no record matches, and on a match it sets exactly `name`,
`isActive` and `updatedAt` on the target record and succeeds. -/
theorem C5_update_user_admin_caller (store : List UserRecord) (now : Nat)
    (caller target name : String) (act : Bool)
    (hc : is_super_admin caller = true) :
    (target ∈ SUPER_ADMINS →
      update_user store now caller target name act =
        (store, .error cannotEditAdminError)) ∧
    (target ∉ SUPER_ADMINS → find_one store target = none →
      update_user store now caller target name act =
        (store, .error notFoundError)) ∧
    (∀ u, target ∉ SUPER_ADMINS → find_one store target = some u →
      (update_user store now caller target name act).2 =
        .ok "User updated successfully" ∧
      find_one (update_user store now caller target name act).1 target =
        some { u with name := name, isActive := act, updatedAt := now }) := by
  refine ⟨?_, ?_, ?_⟩
  · intro ht
    simp [update_user, hc, ht]
  · intro ht hn
    have h0 := update_one_of_find_none
      (fun u => { u with name := name, isActive := act, updatedAt := now }) hn
    simp [update_user, hc, ht, h0]
  · intro u ht hs
    have hcnt := update_one_counts
      (fun u => { u with name := name, isActive := act, updatedAt := now }) hs
    have hf := find_one_update_one
      (fun u => { u with name := name, isActive := act, updatedAt := now }) hs
      (by simpa using find_one_phone hs)
    constructor
    · simp [update_user, hc, ht, hcnt.1]
    · simp [update_user, hc, ht, hcnt.1, hf]

theorem C5_witness :
    update_user [] 0 "+919899273448" "+919899273448" "n" true =
      ([], .error cannotEditAdminError) :=
  (C5_update_user_admin_caller [] 0 "+919899273448" "+919899273448" "n" true
    (by decide)).1 (by decide)

/-- C6 (counterexample): `update_profile` can fail with `404 User not found`
even though a record matches the phone number: the handler tests Mongo's
`modified_count`, which is 0 when the stored `name` already equals the
new name and the stored `updatedAt` already equals the current time. -/
theorem C6_counterexample :
    find_one
      [{ phoneNumber := "+912222222222", firebaseUid := none, name := "Alice",
         isActive := true, isSuperAdmin := false,
         createdAt := 5, updatedAt := 5, lastLogin := 5 }] "+912222222222" =
      some { phoneNumber := "+912222222222", firebaseUid := none, name := "Alice",
             isActive := true, isSuperAdmin := false,
             createdAt := 5, updatedAt := 5, lastLogin := 5 } ∧
    (update_profile
      [{ phoneNumber := "+912222222222", firebaseUid := none, name := "Alice",
         isActive := true, isSuperAdmin := false,
         createdAt := 5, updatedAt := 5, lastLogin := 5 }] 5 "+912222222222"
      "Alice").2 = .error notFoundError := by
  constructor
  · rfl
  · rfl

/-- C6 (amended): `update_profile` fails with `404 User not found` exactly
when the `$set` modifies nothing: either no record matches the phone
number, or the matching record already carries the new name and the
current timestamp.  In every other case it updates only `name` and
`updatedAt` and succeeds. -/
theorem C6_update_profile_modified_count (store : List UserRecord) (now : Nat)
    (phone name : String) :
    (find_one store phone = none →
      update_profile store now phone name = (store, .error notFoundError)) ∧
    (∀ u, find_one store phone = some u → u.name = name → u.updatedAt = now →
      update_profile store now phone name = (store, .error notFoundError)) ∧
    (∀ u, find_one store phone = some u → ¬(u.name = name ∧ u.updatedAt = now) →
      (update_profile store now phone name).2 = .ok "Profile updated successfully" ∧
      find_one (update_profile store now phone name).1 phone =
        some { u with name := name, updatedAt := now }) := by
  refine ⟨?_, ?_, ?_⟩
  · intro hn
    have h0 := update_one_of_find_none
      (fun u => { u with name := name, updatedAt := now }) hn
    simp [update_profile, h0]
  · intro u hs h1 h2
    have hfix : ({ u with name := name, updatedAt := now } : UserRecord) = u :=
      (set_name_updatedAt_eq_self u name now).mpr ⟨h1, h2⟩
    have hcnt := update_one_counts
      (fun u => { u with name := name, updatedAt := now }) hs
    have hfst := update_one_fst_of_fix
      (fun u => { u with name := name, updatedAt := now }) hs hfix
    simp [update_profile, hcnt.2, hfix, hfst]
  · intro u hs hne
    have hfix : ¬({ u with name := name, updatedAt := now } : UserRecord) = u := by
      intro hcontra
      exact hne ((set_name_updatedAt_eq_self u name now).mp hcontra)
    have hcnt := update_one_counts
      (fun u => { u with name := name, updatedAt := now }) hs
    have hf := find_one_update_one
      (fun u => { u with name := name, updatedAt := now }) hs
      (by simpa using find_one_phone hs)
    constructor
    · simp [update_profile, hcnt.2, hfix]
    · simp [update_profile, hcnt.2, hfix, hf]

theorem C6_witness :
    update_profile [] 7 "+912222222222" "Bob" = ([], .error notFoundError) :=
  (C6_update_profile_modified_count [] 7 "+912222222222" "Bob").1 rfl

/-- C9: a request with no Authorization header, or a header that does not
start with "Bearer ", is rejected with 401 before the handler body runs
(the store is returned untouched); a token that the verifier accepts but
that carries no phone-number claim is likewise rejected with 401. -/
theorem C9_auth_header_gate (verify : String → Except String DecodedToken)
    (store : List UserRecord) (now : Nat) (auth : Option String) :
    (auth = none →
      get_current_user verify auth =
        .error ⟨401, "Missing or invalid authorization header"⟩ ∧
      handle_verify_token verify store now auth =
        (store, .error ⟨401, "Missing or invalid authorization header"⟩)) ∧
    (∀ s, auth = some s → startswith s "Bearer " = false →
      get_current_user verify auth =
        .error ⟨401, "Missing or invalid authorization header"⟩ ∧
      handle_verify_token verify store now auth =
        (store, .error ⟨401, "Missing or invalid authorization header"⟩)) ∧
    (∀ s d, auth = some s → startswith s "Bearer " = true →
      verify (s.replace "Bearer " "") = .ok d → d.phone_number = none →
      get_current_user verify auth =
        .error ⟨401, "Phone number not found in token"⟩ ∧
      handle_verify_token verify store now auth =
        (store, .error ⟨401, "Phone number not found in token"⟩)) := by
  refine ⟨?_, ?_, ?_⟩
  · intro hn
    subst hn
    exact ⟨rfl, rfl⟩
  · intro s hs hsw
    subst hs
    have hg : get_current_user verify (some s) =
        .error ⟨401, "Missing or invalid authorization header"⟩ := by
      simp [get_current_user, hsw]
    exact ⟨hg, by simp [handle_verify_token, hg]⟩
  · intro s d hs hsw hv hp
    subst hs
    have hg : get_current_user verify (some s) =
        .error ⟨401, "Phone number not found in token"⟩ := by
      simp [get_current_user, hsw, hv, hp]
    exact ⟨hg, by simp [handle_verify_token, hg]⟩

theorem C9_witness :
    (handle_verify_token (fun _ => .ok ⟨none, some "u1"⟩) [] 0 none =
      ([], .error ⟨401, "Missing or invalid authorization header"⟩)) ∧
    (handle_verify_token (fun _ => .ok ⟨none, some "u1"⟩) [] 0 (some "Token abc") =
      ([], .error ⟨401, "Missing or invalid authorization header"⟩)) ∧
    (handle_verify_token (fun _ => .ok ⟨none, some "u1"⟩) [] 0 (some "Bearer abc") =
      ([], .error ⟨401, "Phone number not found in token"⟩)) :=
  ⟨((C9_auth_header_gate (fun _ => .ok ⟨none, some "u1"⟩) [] 0 none).1 rfl).2,
   ((C9_auth_header_gate (fun _ => .ok ⟨none, some "u1"⟩) [] 0 (some "Token abc")).2.1
     "Token abc" rfl (by decide)).2,
   ((C9_auth_header_gate (fun _ => .ok ⟨none, some "u1"⟩) [] 0 (some "Bearer abc")).2.2
     "Bearer abc" ⟨none, some "u1"⟩ rfl (by decide) rfl rfl).2⟩

end TapBill
